import Mathlib

/-!
Verification of the profile persistence layer and document-generation
pipeline of the ld-profile application (src/models.py, src/database.py,
src/utils.py, src/pdf_generator.py, src/ui/missing_person_form.py).

Python strings are embedded as lists of characters; Python dicts holding
profile data as association lists from string keys to a JSON-like value
type; the SQLAlchemy-backed store as an association list of rows indexed
by the profile_id column; Fernet symmetric encryption as a pairing of the
key with the serialized payload (authenticated encryption fails exactly
when the decryption key differs from the encryption key, which also models
a corrupted payload); wall-clock time as an explicit numeric parameter;
filesystem and network effects of the PDF builders as an explicit
environment record of outcomes.
-/

set_option maxRecDepth 4096

/-- A Python string, embedded as its list of characters. -/
abbrev PyStr := List Char

/-- True when the first list is a prefix of the second. -/
def isPrefixList : PyStr → PyStr → Bool
  | [], _ => true
  | _ :: _, [] => false
  | a :: as, b :: bs => a = b && isPrefixList as bs

/-- Python `sub in s` substring containment. -/
def pyInStr (sub : PyStr) : PyStr → Bool
  | [] => isPrefixList sub []
  | c :: rest => isPrefixList sub (c :: rest) || pyInStr sub rest

/-- Python `s.split(sep)` for a non-empty separator, on decreasing fuel:
each step consumes at least one character, so fuel equal to the input
length never runs out. -/
def pySplitSepAux (sep : PyStr) : Nat → PyStr → List PyStr
  | _, [] => [[]]
  | 0, s => [s]
  | fuel + 1, c :: rest =>
    if sep ≠ [] ∧ isPrefixList sep (c :: rest) then
      [] :: pySplitSepAux sep fuel (List.drop (sep.length - 1) rest)
    else
      match pySplitSepAux sep fuel rest with
      | [] => [[c]]
      | g :: gs => (c :: g) :: gs

/-- Python `s.split(sep)` for a non-empty separator: the list of chunks
between non-overlapping occurrences of `sep`, scanning left to right. -/
def pySplitSep (sep s : PyStr) : List PyStr := pySplitSepAux sep s.length s

/-- Python `s.strip()`: drop leading and trailing whitespace. (Python also
strips some further Unicode space characters; none occur in this code.) -/
def pyStrip (s : PyStr) : PyStr :=
  ((s.dropWhile Char.isWhitespace).reverse.dropWhile Char.isWhitespace).reverse

/-- Python `s.lower()`. (`Char.toLower` lowers the ASCII range, which covers
every marker string compared in the source.) -/
def pyLower (s : PyStr) : PyStr := s.map Char.toLower

/-- Python `s.endswith(c)` for a single character. -/
def pyEndsWith (s : PyStr) (c : Char) : Bool :=
  match s.getLast? with
  | some d => d = c
  | none => false

/-- Python `s.split()` with no argument: split on runs of whitespace,
dropping empty chunks. -/
def pySplitWhitespaceAux : PyStr → PyStr → List PyStr
  | [], acc => if acc = [] then [] else [acc.reverse]
  | c :: rest, acc =>
    if c.isWhitespace then
      if acc = [] then pySplitWhitespaceAux rest []
      else acc.reverse :: pySplitWhitespaceAux rest []
    else pySplitWhitespaceAux rest (c :: acc)

/-- Python `s.split()` with no argument. -/
def pySplitWhitespace (s : PyStr) : List PyStr := pySplitWhitespaceAux s []

/-- Python `sep.join(xs)`. -/
def pyJoin (sep : PyStr) : List PyStr → PyStr
  | [] => []
  | [x] => x
  | x :: xs => x ++ sep ++ pyJoin sep xs

/-- Numeric value of a list of decimal digit characters. -/
def digitsVal (s : PyStr) : Nat :=
  s.foldl (fun a c => 10 * a + (c.toNat - '0'.toNat)) 0

/-- Python `int(s)` on a string: optional surrounding whitespace, optional
sign, then at least one decimal digit. (Python also accepts underscore
digit separators; none are relevant here.) -/
def pyIntStr (s0 : PyStr) : Option Int :=
  let s := pyStrip s0
  let (sgn, t) : Int × PyStr :=
    match s with
    | '+' :: t => (1, t)
    | '-' :: t => (-1, t)
    | t => (1, t)
  if t ≠ [] ∧ t.all Char.isDigit then some (sgn * (digitsVal t : Int))
  else none

/-- Python `float(s)` restricted to finite decimal notation with an optional
exponent, returned as a pair `(mantissa, exponent)` denoting
`mantissa * 10 ^ exponent`. (Python additionally accepts `inf`, `nan` and
underscore separators, none of which occur in coordinate text; Python
represents the result as the nearest IEEE double, which this development
models exactly by the denoted decimal rational.) -/
def pyFloatParts (s0 : PyStr) : Option (Int × Int) :=
  let s := pyStrip s0
  let (sgn, t) : Int × PyStr :=
    match s with
    | '+' :: t => (1, t)
    | '-' :: t => (-1, t)
    | t => (1, t)
  let intPart := t.takeWhile Char.isDigit
  let s1 := t.dropWhile Char.isDigit
  let (fracPart, s2) : PyStr × PyStr :=
    match s1 with
    | '.' :: u => (u.takeWhile Char.isDigit, u.dropWhile Char.isDigit)
    | u => ([], u)
  if intPart = [] ∧ fracPart = [] then none
  else
    let m : Int := sgn * (digitsVal (intPart ++ fracPart) : Int)
    let e0 : Int := -(fracPart.length : Int)
    match s2 with
    | [] => some (m, e0)
    | e :: u =>
      if e = 'e' ∨ e = 'E' then
        let (esgn, u1) : Int × PyStr :=
          match u with
          | '+' :: w => (1, w)
          | '-' :: w => (-1, w)
          | w => (1, w)
        let ed := u1.takeWhile Char.isDigit
        let rest := u1.dropWhile Char.isDigit
        if ed = [] ∨ rest ≠ [] then none
        else some (m, e0 + esgn * (digitsVal ed : Int))
      else none

/-- The rational denoted by a decimal `(mantissa, exponent)` pair. -/
def decValue (p : Int × Int) : ℚ := (p.1 : ℚ) * (10 : ℚ) ^ (p.2 : ℤ)

/-! ## src/utils.py -/

/-- Embeds `utils.sanitize_filename`: spaces are first replaced by
underscores, then every character failing
`c.isalnum() or c in ['-', '_']` maps to an underscore. Python's
`str.isalnum` is a fixed Unicode predicate; the development is generic over
the alphanumeric test, so every proved property holds for Python's actual
predicate in particular. -/
def sanitize_filename (isalnum : Char → Bool) (name : PyStr) : PyStr :=
  (name.map fun c => if c = ' ' then '_' else c).map
    fun c => if isalnum c || c = '-' || c = '_' then c else '_'

/-- Embeds `utils.generate_short_summary`: empty text maps to itself;
otherwise take the first `.`-separated sentence, stripped; if it has at
most `max_words` whitespace-separated words return it, else join the first
`max_words` words and append an ellipsis. -/
def generate_short_summary (text : PyStr) (max_words : Nat := 15) : PyStr :=
  if text = [] then []
  else
    let sentences := pySplitSep ['.'] text
    let first_sentence := pyStrip (sentences.headD [])
    let words := pySplitWhitespace first_sentence
    if words.length ≤ max_words then first_sentence
    else pyJoin [' '] (words.take max_words) ++ "...".data

/-- Embeds the parsing core of `utils.extract_coordinates`, up to the
decimal reading of the two floats: empty text and text without the
case-insensitive `coordinates:` marker yield nothing; otherwise the text
after the first marker is stripped, a trailing closing parenthesis is
dropped, and the remainder must split on `,` into exactly two `float`able
pieces. Any failure inside the `try` block of the source is the `none`
result here. -/
def extract_coordinates_parts (location_text : PyStr) : Option ((Int × Int) × (Int × Int)) :=
  if location_text = [] then none
  else
    let low := pyLower location_text
    if pyInStr "coordinates:".data low then
      match (pySplitSep "coordinates:".data low).get? 1 with
      | none => none
      | some part0 =>
        let part1 := pyStrip part0
        let part2 := if pyEndsWith part1 ')' then part1.dropLast else part1
        match pySplitSep [','] part2 with
        | [a, b] =>
          match pyFloatParts (pyStrip a), pyFloatParts (pyStrip b) with
          | some x, some y => some (x, y)
          | _, _ => none
        | _ => none
    else none

/-- Embeds `utils.extract_coordinates`: the `(lat, lng)` pair on a
successful parse, `(None, None)` otherwise. -/
def extract_coordinates (location_text : PyStr) : Option ℚ × Option ℚ :=
  match extract_coordinates_parts location_text with
  | some (x, y) => (some (decValue x), some (decValue y))
  | none => (none, none)

/-! ## Profile data dictionaries

The decrypted payload of the store, and the input of both PDF builders, is
a flat Python dict from string keys to JSON-serializable values
(`models.ProfileData`). -/

/-- A JSON-serializable Python value as used in profile dictionaries. -/
inductive Value where
  | str (s : PyStr)
  | int (n : Int)
  | bool (b : Bool)
  | list (xs : List PyStr)
deriving DecidableEq

/-- A profile dictionary: an association list from keys to values; lookup
returns the first binding, mirroring a Python dict in which keys are
unique. -/
abbrev Dict := List (String × Value)

/-- Python `d[k]` / `k in d` combined: the first value bound to `k`. -/
def dictGet : Dict → String → Option Value
  | [], _ => none
  | (k, v) :: rest, key => if k = key then some v else dictGet rest key

/-- Python `d.get(k, dflt)`. -/
def pyGetD (d : Dict) (k : String) (dflt : Value) : Value :=
  (dictGet d k).getD dflt

/-- Rebind key `k` to `v`, shadowing any prior binding. -/
def dictOverride (d : Dict) (k : String) (v : Value) : Dict := (k, v) :: d

/-- Truthiness of a Python dict lookup result: absent keys and empty or
zero values are falsy. -/
def pyTruthy : Option Value → Bool
  | none => false
  | some (.str s) => s ≠ []
  | some (.int n) => n ≠ 0
  | some (.bool b) => b
  | some (.list xs) => xs ≠ []

/-- The string bound to `k`, or `dflt` when the key is absent. Profile
dictionaries bind string-typed keys to strings (`models.ProfileData`). -/
def getStrD (d : Dict) (k : String) (dflt : PyStr) : PyStr :=
  match dictGet d k with
  | some (.str s) => s
  | _ => dflt

/-- Rendering of a value by a Python f-string. The list branch
approximates `repr` by comma-joining the elements; no claim depends on
it. -/
def pyShowValue : Value → PyStr
  | .str s => s
  | .int n => (toString n).data
  | .bool b => if b then "True".data else "False".data
  | .list xs => ['['] ++ pyJoin ", ".data xs ++ [']']

/-! ## src/models.py -/

/-- A Python `datetime.date`. -/
structure Date where
  year : Int
  month : Nat
  day : Nat
deriving DecidableEq

/-- A Python `datetime.time` as constructed by `models.Profile.from_dict`
(`datetime.time(hours, minutes)`, seconds zero). -/
structure Time where
  hour : Nat
  minute : Nat
  second : Nat := 0
deriving DecidableEq

/-- A Python `datetime.datetime`. -/
structure DateTimeV where
  date : Date
  hour : Nat
  minute : Nat
  second : Nat
  micro : Nat
deriving DecidableEq

/-- Leap-year test of the proleptic Gregorian calendar used by
`datetime.date`. -/
def isLeap (y : Int) : Bool := (y % 4 = 0 ∧ y % 100 ≠ 0) ∨ y % 400 = 0

/-- Number of days in a month of a year. -/
def daysInMonth (y : Int) (m : Nat) : Nat :=
  if m = 2 then (if isLeap y then 29 else 28)
  else if m = 4 ∨ m = 6 ∨ m = 9 ∨ m = 11 then 30
  else 31

/-- Python `datetime.date.fromisoformat` in the `YYYY-MM-DD` form it
accepts on the Python versions this code targets: four digit year, two
digit month and day, calendar-valid. A parse failure is the `ValueError`
the source catches. -/
def parseIsoDate (s : PyStr) : Option Date :=
  match pySplitSep ['-'] s with
  | [ys, ms, ds] =>
    if ys.length = 4 ∧ ms.length = 2 ∧ ds.length = 2
        ∧ ys.all Char.isDigit ∧ ms.all Char.isDigit ∧ ds.all Char.isDigit then
      let y : Int := (digitsVal ys : Int)
      let m := digitsVal ms
      let d := digitsVal ds
      if 1 ≤ m ∧ m ≤ 12 ∧ 1 ≤ d ∧ d ≤ daysInMonth y m then
        some ⟨y, m, d⟩
      else none
    else none
  | _ => none

/-- Time-of-day part of `datetime.datetime.fromisoformat`:
`HH:MM[:SS[.ffffff]]` with range checks. -/
def parseIsoTimePart (s : PyStr) : Option (Nat × Nat × Nat × Nat) :=
  match pySplitSep [':'] s with
  | [hs, ms] =>
    if hs.length = 2 ∧ ms.length = 2 ∧ hs.all Char.isDigit ∧ ms.all Char.isDigit
        ∧ digitsVal hs ≤ 23 ∧ digitsVal ms ≤ 59 then
      some (digitsVal hs, digitsVal ms, 0, 0)
    else none
  | [hs, ms, ss] =>
    let (sec, frac) : PyStr × PyStr :=
      match pySplitSep ['.'] ss with
      | [a, b] => (a, b)
      | _ => (ss, [])
    if hs.length = 2 ∧ ms.length = 2 ∧ sec.length = 2
        ∧ hs.all Char.isDigit ∧ ms.all Char.isDigit ∧ sec.all Char.isDigit
        ∧ (frac.length = 0 ∨ frac.length = 3 ∨ frac.length = 6) ∧ frac.all Char.isDigit
        ∧ digitsVal hs ≤ 23 ∧ digitsVal ms ≤ 59 ∧ digitsVal sec ≤ 59 then
      some (digitsVal hs, digitsVal ms, digitsVal sec,
        digitsVal frac * (if frac.length = 3 then 1000 else 1))
    else none
  | _ => none

/-- Python `datetime.datetime.fromisoformat`: a date, optionally followed
by a one-character separator and a time of day. -/
def parseIsoDateTime (s : PyStr) : Option DateTimeV :=
  if s.length = 10 then
    (parseIsoDate s).map fun d => ⟨d, 0, 0, 0, 0⟩
  else if 10 < s.length then
    match parseIsoDate (s.take 10) with
    | none => none
    | some d => (parseIsoTimePart (s.drop 11)).map fun t => ⟨d, t.1, t.2.1, t.2.2.1, t.2.2.2⟩
  else none

/-- Lexicographic comparison of `(month, day)` pairs, as Python compares
tuples. -/
def pairLt (a b : Nat × Nat) : Bool :=
  a.1 < b.1 || (a.1 = b.1 && a.2 < b.2)

/-- Embeds `utils.calculate_age` and the identical inline computation of
`models.Profile.from_dict`: full years elapsed between the date of birth
and today. -/
def calculate_age (today dob : Date) : Int :=
  today.year - dob.year -
    (if pairLt (today.month, today.day) (dob.month, dob.day) then 1 else 0)

/-- The `age` field of `models.Profile`, typed `Union[int, str]`. -/
inductive AgeV where
  | int (n : Int)
  | str (s : PyStr)
deriving DecidableEq

namespace Models

/-- Embeds the `models.Profile` dataclass, with the dataclass defaults.
The factory-generated `profile_id`, `created_date` and `last_updated`
defaults have no default here and are supplied by the caller. -/
structure Profile where
  name : PyStr := []
  dob : Option Date := none
  age : AgeV := .str []
  nhs_number : PyStr := []
  emergency_contact : PyStr := []
  height_cm : Int := 170
  weight_kg : Int := 70
  build : PyStr := "Average".data
  hair_color : PyStr := "Brown".data
  hair_style : PyStr := []
  eye_color : PyStr := "Brown".data
  distinguishing_features : PyStr := []
  important_to_me : PyStr := []
  how_to_support : PyStr := []
  communication : PyStr := []
  medical_info : PyStr := []
  places_might_go : PyStr := []
  travel_routines : PyStr := []
  last_seen_date : Option Date := none
  last_seen_time : Option Time := none
  last_seen_location : PyStr := []
  last_seen_wearing : PyStr := []
  reference_number : PyStr := []
  medical_info_short : PyStr := []
  communication_short : PyStr := []
  places_might_go_short : PyStr := []
  profile_image : PyStr := []
  additional_images : List PyStr := []
  gdpr_consent : Bool := false
  profile_id : PyStr
  created_date : DateTimeV
  last_updated : DateTimeV
deriving DecidableEq

/-- Python `int(v)` on a dict value: identity on ints, 0/1 on bools, and
decimal parsing on strings; `none` is the uncaught `ValueError` or
`TypeError` that `from_dict` would propagate. -/
def pyIntOfValue : Value → Option Int
  | .int n => some n
  | .bool b => some (if b then 1 else 0)
  | .str s => pyIntStr s
  | .list _ => none

/-- The Boolean bound to `k` when present with that type, else `dflt`;
models the `setattr` loop of `from_dict` on the Boolean key of the
`ProfileData` schema. -/
def getBoolD (d : Dict) (k : String) (dflt : Bool) : Bool :=
  match dictGet d k with
  | some (.bool b) => b
  | _ => dflt

/-- Embeds `models.Profile.from_dict`. `today` models
`datetime.date.today()`; `freshId` and `nowDT` model the dataclass
default factories run by `cls()`. String and Boolean attributes follow
the `setattr` loop on the `ProfileData`-typed keys; `height_cm` and
`weight_kg` go through `int(...)`, whose failure (the `none` result) the
source does not catch; dates, times and timestamps are parsed with their
failures swallowed; the age is recomputed from the parsed date of birth
and never read from the dictionary. -/
def from_dict (today : Date) (freshId : PyStr) (nowDT : DateTimeV) (data : Dict) :
    Option Profile :=
  let p0 : Profile := { profile_id := freshId, created_date := nowDT, last_updated := nowDT }
  let p1 : Profile := { p0 with
    name := getStrD data "name" p0.name,
    nhs_number := getStrD data "nhs_number" p0.nhs_number,
    emergency_contact := getStrD data "emergency_contact" p0.emergency_contact,
    build := getStrD data "build" p0.build,
    hair_color := getStrD data "hair_color" p0.hair_color,
    hair_style := getStrD data "hair_style" p0.hair_style,
    eye_color := getStrD data "eye_color" p0.eye_color,
    distinguishing_features := getStrD data "distinguishing_features" p0.distinguishing_features,
    important_to_me := getStrD data "important_to_me" p0.important_to_me,
    how_to_support := getStrD data "how_to_support" p0.how_to_support,
    communication := getStrD data "communication" p0.communication,
    medical_info := getStrD data "medical_info" p0.medical_info,
    places_might_go := getStrD data "places_might_go" p0.places_might_go,
    travel_routines := getStrD data "travel_routines" p0.travel_routines,
    last_seen_location := getStrD data "last_seen_location" p0.last_seen_location,
    last_seen_wearing := getStrD data "last_seen_wearing" p0.last_seen_wearing,
    reference_number := getStrD data "reference_number" p0.reference_number,
    medical_info_short := getStrD data "medical_info_short" p0.medical_info_short,
    communication_short := getStrD data "communication_short" p0.communication_short,
    places_might_go_short := getStrD data "places_might_go_short" p0.places_might_go_short,
    profile_image := getStrD data "profile_image" p0.profile_image,
    gdpr_consent := getBoolD data "gdpr_consent" p0.gdpr_consent,
    profile_id := getStrD data "profile_id" p0.profile_id }
  let hOpt : Option Int :=
    match dictGet data "height_cm" with
    | none => some p1.height_cm
    | some v => pyIntOfValue v
  let wOpt : Option Int :=
    match dictGet data "weight_kg" with
    | none => some p1.weight_kg
    | some v => pyIntOfValue v
  match hOpt, wOpt with
  | some h, some w =>
    let (dobv, agev) : Option Date × AgeV :=
      match dictGet data "dob" with
      | some (.str s) =>
        if s ≠ [] then
          match parseIsoDate s with
          | some dt => (some dt, .int (calculate_age today dt))
          | none => (p1.dob, p1.age)
        else (p1.dob, p1.age)
      | _ => (p1.dob, p1.age)
    let lsd : Option Date :=
      match dictGet data "last_seen_date" with
      | some (.str s) =>
        if s ≠ [] then
          match parseIsoDate s with
          | some dt => some dt
          | none => p1.last_seen_date
        else p1.last_seen_date
      | _ => p1.last_seen_date
    let lst : Option Time :=
      match dictGet data "last_seen_time" with
      | some (.str s) =>
        if s ≠ [] then
          match pySplitSep [':'] s with
          | [a, b] =>
            match pyIntStr a, pyIntStr b with
            | some hh, some mm =>
              if 0 ≤ hh ∧ hh ≤ 23 ∧ 0 ≤ mm ∧ mm ≤ 59 then
                some ⟨hh.toNat, mm.toNat, 0⟩
              else p1.last_seen_time
            | _, _ => p1.last_seen_time
          | _ => p1.last_seen_time
        else p1.last_seen_time
      | _ => p1.last_seen_time
    let addImgs : List PyStr :=
      match dictGet data "additional_images" with
      | some (.list xs) => xs
      | _ => p1.additional_images
    let cd : DateTimeV :=
      match dictGet data "created_date" with
      | some (.str s) =>
        if s ≠ [] then (parseIsoDateTime s).getD p1.created_date else p1.created_date
      | _ => p1.created_date
    let lu : DateTimeV :=
      match dictGet data "last_updated" with
      | some (.str s) =>
        if s ≠ [] then (parseIsoDateTime s).getD p1.last_updated else p1.last_updated
      | _ => p1.last_updated
    some { p1 with
      height_cm := h, weight_kg := w, dob := dobv, age := agev,
      last_seen_date := lsd, last_seen_time := lst,
      additional_images := addImgs, created_date := cd, last_updated := lu }
  | _, _ => none

/-- Embeds `models.Profile.validate`: a missing name and a consent flag
that is not strictly `True` each contribute an error message. -/
def Profile.validate (p : Profile) : List PyStr :=
  (if p.name = [] then ["Name is required".data] else []) ++
  (if p.gdpr_consent ≠ true then ["You must consent to data storage".data] else [])

/-- English month name, as `strftime` formats `%B`. -/
def monthName : Nat → PyStr
  | 1 => "January".data
  | 2 => "February".data
  | 3 => "March".data
  | 4 => "April".data
  | 5 => "May".data
  | 6 => "June".data
  | 7 => "July".data
  | 8 => "August".data
  | 9 => "September".data
  | 10 => "October".data
  | 11 => "November".data
  | 12 => "December".data
  | _ => []

/-- A natural number zero-padded to two digits, as `strftime` formats
`%d`, `%H` and `%M`. -/
def pad2 (n : Nat) : PyStr :=
  if n < 10 then '0' :: (toString n).data else (toString n).data

/-- Python `strftime` with format `%d %B %Y`. -/
def strftimeDMY (d : Date) : PyStr :=
  pad2 d.day ++ [' '] ++ monthName d.month ++ [' '] ++ (toString d.year).data

/-- Python `strftime` with format `%H:%M`. -/
def strftimeHM (t : Time) : PyStr :=
  pad2 t.hour ++ [':'] ++ pad2 t.minute

/-- Embeds the derived `models.Profile.last_seen_datetime` property:
empty unless both date and time are present, else the formatted
`%d %B %Y at %H:%M` display string. -/
def Profile.last_seen_datetime (p : Profile) : PyStr :=
  match p.last_seen_date, p.last_seen_time with
  | some d, some t => strftimeDMY d ++ " at ".data ++ strftimeHM t
  | _, _ => []

end Models

/-! ## src/database.py

The `profiles` table (the SQLAlchemy `database.Profile` model) is a list
of rows keyed by the `profile_id` column, which `save_profile` fills with
`profile_data.get('profile_id')` and may therefore be null. Fernet
encryption binds the payload to the key; decryption fails exactly on a
key mismatch, which also models a corrupted or rotated-key payload, since
Fernet is authenticated. `datetime.datetime.utcnow()` is an explicit
numeric tick supplied by the caller. -/

/-- A Fernet token: the encrypting key together with the serialized
payload (`json.dumps` round-trips the `ProfileData` value types, so the
serialization boundary is the identity on dictionaries). -/
structure Encrypted where
  key : Nat
  data : Dict
deriving DecidableEq

/-- Embeds `DatabaseManager.encrypt_data`. -/
def encrypt_data (key : Nat) (d : Dict) : Encrypted := ⟨key, d⟩

/-- Embeds `DatabaseManager.decrypt_data`: succeeds exactly when the
token was produced under the same key; the `none` result is the raised
decryption error that callers catch. -/
def decrypt_data (key : Nat) (e : Encrypted) : Option Dict :=
  if e.key = key then some e.data else none

/-- A row of the `profiles` table. -/
structure DBRow where
  encrypted_data : Encrypted
  created_date : Nat
  last_updated : Nat
deriving DecidableEq

/-- The `profiles` table, keyed by the nullable `profile_id` column. -/
abbrev DB := List (Option Value × DBRow)

/-- `session.query(Profile).filter_by(profile_id=pid).first()`. -/
def dbFind : DB → Option Value → Option DBRow
  | [], _ => none
  | (k, r) :: rest, pid => if k = pid then some r else dbFind rest pid

/-- Remove the first row with the given key, as `session.delete` removes
the row object `first()` returned. -/
def dbEraseFirst : DB → Option Value → DB
  | [], _ => []
  | (k, r) :: rest, pid => if k = pid then rest else (k, r) :: dbEraseFirst rest pid

/-- Replace the payload and bump `last_updated` of the row(s) with the
given key, keeping `created_date`; the update branch of `save_profile`
(keys are unique in any table the API builds, so this matches updating
the row `first()` returned). -/
def dbUpdateRow (pid : Option Value) (enc : Encrypted) (now : Nat) : DB → DB
  | [] => []
  | (k, r) :: rest =>
    (if k = pid then (k, { r with encrypted_data := enc, last_updated := now }) else (k, r))
      :: dbUpdateRow pid enc now rest

/-- Embeds `DatabaseManager.save_profile`: encrypt the full dictionary,
then update the existing row (bumping `last_updated`) or insert a new one
(setting both timestamps); returns `profile_data.get('profile_id')` and
the new table state. -/
def save_profile (key now : Nat) (db : DB) (profile_data : Dict) : Option Value × DB :=
  let pid := dictGet profile_data "profile_id"
  let enc := encrypt_data key profile_data
  match dbFind db pid with
  | some _ => (pid, dbUpdateRow pid enc now db)
  | none =>
    (pid, db ++ [(pid, { encrypted_data := enc, created_date := now, last_updated := now })])

/-- Embeds `DatabaseManager.load_profile`: `None` when no row matches,
and also `None` when the row exists but decryption fails, since the
source catches the decryption error and returns `None`. -/
def load_profile (key : Nat) (db : DB) (profile_id : PyStr) : Option Dict :=
  match dbFind db (some (.str profile_id)) with
  | none => none
  | some row =>
    match decrypt_data key row.encrypted_data with
    | some d => some d
    | none => none

/-- Embeds `DatabaseManager.delete_profile`. `storageFail` injects a
storage exception during the delete/commit, which the source catches,
rolls back and converts to `False`; the function is total and never
raises at its interface. -/
def delete_profile (db : DB) (profile_id : PyStr) (storageFail : Bool) : Bool × DB :=
  match dbFind db (some (.str profile_id)) with
  | some _ =>
    if storageFail then (false, db)
    else (true, dbEraseFirst db (some (.str profile_id)))
  | none => (false, db)

/-- Embeds `DatabaseManager.get_all_profiles`: decrypt every row in query
order, skipping rows whose decryption fails. -/
def get_all_profiles (key : Nat) : DB → List (Option Value × Dict)
  | [] => []
  | (pid, row) :: rest =>
    match decrypt_data key row.encrypted_data with
    | some d => (pid, d) :: get_all_profiles key rest
    | none => get_all_profiles key rest

/-- A sequence of saves, each with its own `utcnow` tick. -/
def saveSeq (key : Nat) : DB → List (Dict × Nat) → DB
  | db, [] => db
  | db, (d, t) :: rest => saveSeq key (save_profile key t db d).2 rest

/-- Every row's timestamps are ordered and bounded by `t`. -/
def wellTimed (db : DB) (t : Nat) : Prop :=
  ∀ e ∈ db, e.2.created_date ≤ e.2.last_updated ∧ e.2.last_updated ≤ t

/-- The clock ticks of a save sequence are nondecreasing and start no
earlier than `t`. -/
def timesMonoB : Nat → List (Dict × Nat) → Bool
  | _, [] => true
  | t, (_, n) :: rest => if t ≤ n then timesMonoB n rest else false

/-- The final clock tick of a save sequence. -/
def lastTime : Nat → List (Dict × Nat) → Nat
  | t, [] => t
  | _, (_, n) :: rest => lastTime n rest

/-! ## src/pdf_generator.py

Both builders map a profile dictionary to a document, modeled as pages of
text lines (image and QR elements appear as tagged lines). Filesystem
effects, library availability and rendering outcomes form an explicit
environment of step results; a builder returns `Except.error` exactly when its base document
assembly call (`doc.build` / `poster.output`) fails, matching the
source's try/except structure in which every enrichment failure is caught
and logged. -/

/-- Outcomes of the effectful steps of `create_missing_person_poster`:
whether the profile image path exists on disk and embeds, whether the
folium library is importable, what `geocode_location` returns, whether
map setup up to the `add_page` call succeeds, whether the qrcode library
is importable and the QR code generates, and whether the final
`poster.output` call succeeds. -/
structure PosterEnv where
  imageExists : Bool
  imageEmbedOk : Bool
  foliumAvailable : Bool
  geocodeResult : Option (ℚ × ℚ)
  mapRenderOk : Bool
  qrcodeAvailable : Bool
  qrOk : Bool
  outputOk : Bool
deriving DecidableEq

/-- Text of a rational on the map page. The source formats coordinates to
six decimal places; no claim depends on that digit-level formatting, so
the line carries the exact rationals rendered by `toString`. -/
def ratText (q : ℚ) : PyStr := (toString q).data

/-- The Google Maps deep link built for the map page. -/
def googleMapsUrl (lat lng : ℚ) : PyStr :=
  "https://www.google.com/maps/search/?api=1&query=".data ++ ratText lat ++ [','] ++ ratText lng

/-- The header every poster page carries
(`MissingPersonPoster.header`). -/
def posterHeaderLines (d : Dict) : List PyStr :=
  ["MISSING PERSON".data,
   "URGENT: Please help find ".data ++ pyShowValue (pyGetD d "name" (.str []))]

/-- The optional profile-image element of poster page 1: present when the
stored path is truthy, exists on disk and the embed call succeeds; an
embed failure is caught and skipped. -/
def posterPhotoElems (env : PosterEnv) (d : Dict) : List PyStr :=
  if pyTruthy (dictGet d "profile_image") ∧ env.imageExists then
    if env.imageEmbedOk then
      ["IMAGE:".data ++ pyShowValue (pyGetD d "profile_image" (.str []))]
    else []
  else []

/-- The description block of poster page 1. -/
def posterDescriptionLines (d : Dict) : List PyStr :=
  ["DESCRIPTION:".data,
   "Name: ".data ++ pyShowValue (pyGetD d "name" (.str [])),
   "Age: ".data ++ pyShowValue (pyGetD d "age" (.str [])),
   "Height: ".data ++ pyShowValue (pyGetD d "height" (.str [])),
   "Build: ".data ++ pyShowValue (pyGetD d "build" (.str [])),
   "Hair: ".data ++ pyShowValue (pyGetD d "hair" (.str [])),
   "Eyes: ".data ++ pyShowValue (pyGetD d "eyes" (.str [])),
   "Distinguishing features: ".data ++ pyShowValue (pyGetD d "distinguishing_features" (.str []))]

/-- The last-seen block of poster page 1: each value is read from the
stored dictionary with an `Unknown` default. -/
def posterLastSeenLines (d : Dict) : List PyStr :=
  ["LAST SEEN:".data,
   "Date and time: ".data ++ pyShowValue (pyGetD d "last_seen_datetime" (.str "Unknown".data)),
   "Location: ".data ++ pyShowValue (pyGetD d "last_seen_location" (.str "Unknown".data)),
   "Wearing: ".data ++ pyShowValue (pyGetD d "last_seen_wearing" (.str "Unknown".data))]

/-- Page 1 of the poster. -/
def posterPage1 (env : PosterEnv) (d : Dict) : List PyStr :=
  posterHeaderLines d ++ posterPhotoElems env d
    ++ posterDescriptionLines d ++ posterLastSeenLines d

/-- The QR-code element of the map page: a missing qrcode library
degrades to a printed note, a failed generation is caught and adds
nothing. -/
def posterQrElems (env : PosterEnv) (url : PyStr) : List PyStr :=
  if env.qrcodeAvailable then
    if env.qrOk then ["QRIMAGE:".data ++ url] else []
  else ["QR code generation not available. Please use the URL above.".data]

/-- The conditional map page (page 2) of the poster. -/
def posterMapPage (env : PosterEnv) (d : Dict) (lat lng : ℚ) : List PyStr :=
  (posterHeaderLines d ++
   ["LOCATION MAP".data,
    "Last seen at: ".data ++ pyShowValue (pyGetD d "last_seen_location" (.str [])),
    "Coordinates: ".data ++ ratText lat ++ ", ".data ++ ratText lng,
    "For an interactive map, scan the QR code or visit the URL below:".data,
    googleMapsUrl lat lng]) ++ posterQrElems env (googleMapsUrl lat lng)

/-- Page 3 of the poster: the short-form safety fields are read from the
stored dictionary with an `Unknown` default — no fallback to the long
fields happens here — followed by the fixed contact footer. -/
def posterPage3 (d : Dict) : List PyStr :=
  (posterHeaderLines d ++
   ["IMPORTANT INFORMATION:".data,
    "Medical needs: ".data ++ pyShowValue (pyGetD d "medical_info_short" (.str "Unknown".data)),
    "Communication: ".data ++ pyShowValue (pyGetD d "communication_short" (.str "Unknown".data)),
    "Places they might go: ".data ++ pyShowValue (pyGetD d "places_might_go_short" (.str "Unknown".data)),
    "IF YOU HAVE ANY INFORMATION PLEASE CONTACT:".data,
    "Police: 101 or 999 in an emergency".data,
    "Reference: ".data ++ pyShowValue (pyGetD d "reference_number" (.str "Please quote name".data))])

/-- Embeds `pdf_generator.create_missing_person_poster`: page 1 is built
unconditionally; the map page is added only when folium imports,
geocoding yields coordinates and map setup succeeds, any failure in that
block being caught and logged; page 3 is built unconditionally; the final
`poster.output` call is the only step whose failure propagates to the
caller. -/
def create_missing_person_poster (env : PosterEnv) (d : Dict) :
    Except Unit (List (List PyStr)) :=
  let p1 := posterPage1 env d
  let maps : List (List PyStr) :=
    if env.foliumAvailable then
      match env.geocodeResult with
      | some (lat, lng) => if env.mapRenderOk then [posterMapPage env d lat lng] else []
      | none => []
    else []
  let p3 := posterPage3 d
  if env.outputOk then .ok (p1 :: (maps ++ [p3])) else .error ()

/-- Outcomes of the effectful steps of `create_profile_pdf`: whether the
profile image path exists and embeds, and whether the final `doc.build`
call succeeds. -/
structure DocEnv where
  imageExists : Bool
  imageEmbedOk : Bool
  buildOk : Bool
deriving DecidableEq

/-- The story of the one-page profile document: title, optional photo,
basic-information table, physical-description table, the fixed free-text
sections, and the confidentiality footer. -/
def profileStory (env : DocEnv) (d : Dict) : List PyStr :=
  ["One-Page Profile: ".data ++ pyShowValue (pyGetD d "name" (.str []))] ++
  (if pyTruthy (dictGet d "profile_image") ∧ env.imageExists then
    if env.imageEmbedOk then
      ["IMAGE:".data ++ pyShowValue (pyGetD d "profile_image" (.str []))]
    else []
  else []) ++
  ["Name: ".data ++ pyShowValue (pyGetD d "name" (.str [])),
   "Date of Birth: ".data ++ pyShowValue (pyGetD d "dob" (.str [])),
   "NHS Number: ".data ++ pyShowValue (pyGetD d "nhs_number" (.str [])),
   "Emergency Contact: ".data ++ pyShowValue (pyGetD d "emergency_contact" (.str [])),
   "Important Information to Keep Me Safe".data,
   "Height: ".data ++ pyShowValue (pyGetD d "height" (.str [])),
   "Build: ".data ++ pyShowValue (pyGetD d "build" (.str [])),
   "Hair Color/Style: ".data ++ pyShowValue (pyGetD d "hair" (.str [])),
   "Eye Color: ".data ++ pyShowValue (pyGetD d "eyes" (.str [])),
   "Distinguishing Features: ".data ++ pyShowValue (pyGetD d "distinguishing_features" (.str [])),
   "What is Important To Me:".data,
   pyShowValue (pyGetD d "important_to_me" (.str [])),
   "How Best To Support Me:".data,
   pyShowValue (pyGetD d "how_to_support" (.str [])),
   "How I Communicate:".data,
   pyShowValue (pyGetD d "communication" (.str [])),
   "Medical Information:".data,
   pyShowValue (pyGetD d "medical_info" (.str [])),
   "Places I Might Go:".data,
   pyShowValue (pyGetD d "places_might_go" (.str [])),
   "Travel Patterns and Routines:".data,
   pyShowValue (pyGetD d "travel_routines" (.str [])),
   "CONFIDENTIAL - Data Protection: This document contains personal data subject to GDPR. Handle according to data protection policies.".data]

/-- Embeds `pdf_generator.create_profile_pdf`: a photo-embed failure is
caught and skipped; only a failure of the final `doc.build` call
propagates. -/
def create_profile_pdf (env : DocEnv) (d : Dict) : Except Unit (List PyStr) :=
  if env.buildOk then .ok (profileStory env d) else .error ()

/-- True on a successful generation result. -/
def exceptOk {α : Type} : Except Unit α → Bool
  | .ok _ => true
  | .error _ => false

/-! ## src/ui/missing_person_form.py -/

/-- Embeds the pre-fill defaults of the missing-person form: the stored
short field when non-empty, else — when the corresponding long field is
truthy — `generate_short_summary` of the long field. This is where the
short-form auto-derivation lives in the source, not in the poster
builder. -/
def formDefaultShort (d : Dict) (shortKey longKey : String) : PyStr :=
  let v := getStrD d shortKey []
  if v = [] ∧ pyTruthy (dictGet d longKey) then
    generate_short_summary (getStrD d longKey []) 15
  else v

/-! ## Helper lemmas -/

/-- Looking up a key other than the rebound one is unchanged. -/
theorem dictGet_override_ne {k k2 : String} (d : Dict) (v : Value) (h : k ≠ k2) :
    dictGet (dictOverride d k v) k2 = dictGet d k2 := by
  simp [dictOverride, dictGet, h]

/-- String reads at a key other than the rebound one are unchanged. -/
theorem getStrD_override {k k2 : String} (d : Dict) (v : Value) (dflt : PyStr) (h : k ≠ k2) :
    getStrD (dictOverride d k v) k2 dflt = getStrD d k2 dflt := by
  simp [getStrD, dictGet_override_ne d v h]

/-- Boolean reads at a key other than the rebound one are unchanged. -/
theorem getBoolD_override {k k2 : String} (d : Dict) (v : Value) (dflt : Bool) (h : k ≠ k2) :
    Models.getBoolD (dictOverride d k v) k2 dflt = Models.getBoolD d k2 dflt := by
  simp [Models.getBoolD, dictGet_override_ne d v h]

/-- A key absent from the table is not found. -/
theorem dbFind_append_of_none {db : DB} {pid : Option Value} (l : DB)
    (h : dbFind db pid = none) : dbFind (db ++ l) pid = dbFind l pid := by
  induction db with
  | nil => simp
  | cons kr rest ih =>
    obtain ⟨k, r⟩ := kr
    by_cases hk : k = pid
    · rw [dbFind, if_pos hk] at h; exact absurd h (by simp)
    · rw [dbFind, if_neg hk] at h
      simpa [dbFind, hk] using ih h

/-- Unfolding of `dbFind` on a row. -/
theorem dbFind_cons (k pid : Option Value) (r : DBRow) (rest : DB) :
    dbFind ((k, r) :: rest) pid = if k = pid then some r else dbFind rest pid := rfl

/-- Unfolding of `dbUpdateRow` on a row. -/
theorem dbUpdateRow_cons (pid : Option Value) (enc : Encrypted) (now : Nat)
    (k : Option Value) (r : DBRow) (rest : DB) :
    dbUpdateRow pid enc now ((k, r) :: rest)
      = (if k = pid then (k, { r with encrypted_data := enc, last_updated := now })
          else (k, r)) :: dbUpdateRow pid enc now rest := rfl

/-- Updating the found row makes the new payload the found row. -/
theorem dbFind_dbUpdateRow (enc : Encrypted) (now : Nat) :
    ∀ (db : DB) (pid : Option Value) (r : DBRow), dbFind db pid = some r →
      dbFind (dbUpdateRow pid enc now db) pid
        = some { r with encrypted_data := enc, last_updated := now } := by
  intro db
  induction db with
  | nil => intro pid r h; simp [dbFind] at h
  | cons kr rest ih =>
    intro pid r h
    obtain ⟨k, r0⟩ := kr
    by_cases hk : k = pid
    · subst hk
      rw [dbFind_cons, if_pos rfl] at h
      injection h with h
      subst h
      rw [dbUpdateRow_cons, if_pos rfl, dbFind_cons, if_pos rfl]
    · rw [dbFind_cons, if_neg hk] at h
      rw [dbUpdateRow_cons, if_neg hk, dbFind_cons, if_neg hk]
      exact ih pid r h

/-- The table state after a save, by the two branches of the upsert. -/
theorem save_profile_snd (key now : Nat) (db : DB) (data : Dict) :
    (save_profile key now db data).2
      = match dbFind db (dictGet data "profile_id") with
        | some _ => dbUpdateRow (dictGet data "profile_id") (encrypt_data key data) now db
        | none => db ++ [(dictGet data "profile_id",
            { encrypted_data := encrypt_data key data, created_date := now,
              last_updated := now })] := by
  simp only [save_profile]
  cases dbFind db (dictGet data "profile_id") <;> rfl

/-- Saving a dictionary whose `profile_id` is the string `s` and then
loading `s` under the same key returns exactly the saved dictionary. -/
theorem load_profile_save_profile (key now : Nat) (db : DB) (data : Dict) (s : PyStr)
    (h : dictGet data "profile_id" = some (.str s)) :
    load_profile key (save_profile key now db data).2 s = some data := by
  have hsnd := save_profile_snd key now db data
  rw [h] at hsnd
  cases hf : dbFind db (some (.str s)) with
  | some r =>
    rw [hf] at hsnd
    simp only at hsnd
    unfold load_profile
    rw [hsnd, dbFind_dbUpdateRow (encrypt_data key data) now db (some (.str s)) r hf]
    simp [decrypt_data, encrypt_data]
  | none =>
    rw [hf] at hsnd
    simp only at hsnd
    unfold load_profile
    rw [hsnd, dbFind_append_of_none _ hf]
    simp [dbFind, decrypt_data, encrypt_data]

/-- Membership in an updated table comes from membership in the original
one, possibly with the payload replaced and `last_updated` bumped. -/
theorem mem_dbUpdateRow {e : Option Value × DBRow} {pid : Option Value}
    {enc : Encrypted} {now : Nat} :
    ∀ {db : DB}, e ∈ dbUpdateRow pid enc now db →
      ∃ e0 ∈ db, e = (if e0.1 = pid
        then (e0.1, { e0.2 with encrypted_data := enc, last_updated := now }) else e0) := by
  intro db
  induction db with
  | nil => intro h; simp [dbUpdateRow] at h
  | cons kr rest ih =>
    intro h
    obtain ⟨k, r0⟩ := kr
    rw [dbUpdateRow] at h
    rcases List.mem_cons.mp h with h1 | h1
    · exact ⟨(k, r0), List.mem_cons_self _ _, h1⟩
    · obtain ⟨e0, he0, heq⟩ := ih h1
      exact ⟨e0, List.mem_cons_of_mem _ he0, heq⟩

/-- A save at a tick no earlier than every existing timestamp preserves
ordered timestamps, now bounded by the new tick. -/
theorem wellTimed_save (key now t : Nat) (db : DB) (data : Dict)
    (hdb : wellTimed db t) (hle : t ≤ now) :
    wellTimed (save_profile key now db data).2 now := by
  have hsnd := save_profile_snd key now db data
  cases hf : dbFind db (dictGet data "profile_id") with
  | some r =>
    rw [hf] at hsnd
    simp only at hsnd
    rw [hsnd]
    intro e he
    obtain ⟨e0, he0, heq⟩ := mem_dbUpdateRow he
    obtain ⟨h1, h2⟩ := hdb e0 he0
    by_cases hk : e0.1 = dictGet data "profile_id"
    · rw [if_pos hk] at heq
      subst heq
      exact ⟨le_trans h1 (le_trans h2 hle), le_refl _⟩
    · rw [if_neg hk] at heq
      subst heq
      exact ⟨h1, le_trans h2 hle⟩
  | none =>
    rw [hf] at hsnd
    simp only at hsnd
    rw [hsnd]
    intro e he
    rcases List.mem_append.mp he with h1 | h1
    · obtain ⟨ha, hb⟩ := hdb e h1
      exact ⟨ha, le_trans hb hle⟩
    · rcases List.mem_singleton.mp h1 with rfl
      exact ⟨le_refl _, le_refl _⟩

/-- A monotone sequence of saves preserves ordered timestamps through to
its final tick. -/
theorem wellTimed_saveSeq (key : Nat) :
    ∀ (ops : List (Dict × Nat)) (db : DB) (t : Nat),
      wellTimed db t → timesMonoB t ops = true →
      wellTimed (saveSeq key db ops) (lastTime t ops) := by
  intro ops
  induction ops with
  | nil => intro db t h _; exact h
  | cons p rest ih =>
    intro db t h hm
    obtain ⟨d, n⟩ := p
    rw [timesMonoB] at hm
    by_cases htn : t ≤ n
    · rw [if_pos htn] at hm
      exact ih _ n (wellTimed_save key n t db d h htn) hm
    · rw [if_neg htn] at hm
      exact absurd hm (by simp)

/-- A row that fails to decrypt contributes nothing to the listing,
wherever it sits in the table. -/
theorem get_all_profiles_skip (key : Nat) (pid : Option Value) (row : DBRow)
    (hbad : decrypt_data key row.encrypted_data = none) :
    ∀ (db1 db2 : DB),
      get_all_profiles key (db1 ++ (pid, row) :: db2) = get_all_profiles key (db1 ++ db2) := by
  intro db1
  induction db1 with
  | nil => intro db2; simp [get_all_profiles, hbad]
  | cons e rest ih =>
    intro db2
    obtain ⟨p, r⟩ := e
    simp only [List.cons_append, get_all_profiles]
    cases hd : decrypt_data key r.encrypted_data <;> simp [ih db2]

/-- A row that decrypts heads the listing with its payload. -/
theorem get_all_profiles_cons_ok (key : Nat) (pid : Option Value) (row : DBRow)
    (d : Dict) (db : DB) (h : decrypt_data key row.encrypted_data = some d) :
    get_all_profiles key ((pid, row) :: db) = (pid, d) :: get_all_profiles key db := by
  simp [get_all_profiles, h]

/-- A key that appears on no row is not found. -/
theorem dbFind_eq_none_of_not_mem {pid : Option Value} :
    ∀ {db : DB}, pid ∉ db.map Prod.fst → dbFind db pid = none := by
  intro db
  induction db with
  | nil => intro _; rfl
  | cons kr rest ih =>
    intro h
    obtain ⟨k, r⟩ := kr
    simp only [List.map_cons, List.mem_cons] at h
    push_neg at h
    rw [dbFind, if_neg (fun hk => h.1 hk.symm) ]
    exact ih h.2

/-- In a table with pairwise-distinct keys, erasing the first row with a
key removes every trace of it. -/
theorem dbFind_dbEraseFirst {pid : Option Value} :
    ∀ {db : DB}, (db.map Prod.fst).Nodup → dbFind (dbEraseFirst db pid) pid = none := by
  intro db
  induction db with
  | nil => intro _; rfl
  | cons kr rest ih =>
    intro hnd
    obtain ⟨k, r⟩ := kr
    simp only [List.map_cons, List.nodup_cons] at hnd
    by_cases hk : k = pid
    · rw [dbEraseFirst, if_pos hk]
      exact dbFind_eq_none_of_not_mem (hk ▸ hnd.1)
    · rw [dbEraseFirst, if_neg hk, dbFind, if_neg hk]
      exact ih hnd.2

/-- Sanitizing distributes over list concatenation. -/
theorem sanitize_filename_append (isalnum : Char → Bool) (a b : PyStr) :
    sanitize_filename isalnum (a ++ b)
      = sanitize_filename isalnum a ++ sanitize_filename isalnum b := by
  simp [sanitize_filename]

/-- Sanitizing a string sanitizes its head and tail independently. -/
theorem sanitize_filename_cons (isalnum : Char → Bool) (c : Char) (cs : PyStr) :
    sanitize_filename isalnum (c :: cs)
      = sanitize_filename isalnum [c] ++ sanitize_filename isalnum cs := by
  simp [sanitize_filename]

/-- Idempotence of sanitization on a single character: the output
character is either kept by the filter or is an underscore, both of which
the filter keeps and the space replacement leaves alone. -/
theorem sanitize_filename_singleton_idem (isalnum : Char → Bool) (c : Char) :
    sanitize_filename isalnum (sanitize_filename isalnum [c])
      = sanitize_filename isalnum [c] := by
  simp only [sanitize_filename, List.map_cons, List.map_nil, List.cons.injEq, and_true]
  split_ifs <;> simp_all

/-- Sanitization is idempotent. -/
theorem sanitize_filename_idem_aux (isalnum : Char → Bool) :
    ∀ x : PyStr, sanitize_filename isalnum (sanitize_filename isalnum x)
      = sanitize_filename isalnum x := by
  intro x
  induction x with
  | nil => rfl
  | cons c cs ih =>
    rw [sanitize_filename_cons, sanitize_filename_append,
      sanitize_filename_singleton_idem, ih, ← sanitize_filename_cons]

/-! ## Claim theorems -/

/-- C9: `sanitize_filename` is total and idempotent for every alphanumeric
predicate, hence for the Unicode one Python uses: applying it twice equals
applying it once, and the empty string maps to itself. -/
theorem C9_sanitize_idempotent_total (isalnum : Char → Bool) (x : PyStr) :
    sanitize_filename isalnum (sanitize_filename isalnum x) = sanitize_filename isalnum x
      ∧ sanitize_filename isalnum [] = [] :=
  ⟨sanitize_filename_idem_aux isalnum x, rfl⟩

/-- C8: `extract_coordinates` returns `(51.5074, -0.1278)` on the marker
example, `(None, None)` on plain text, and on every input — malformed
content after the marker included — returns either `(None, None)` or a
fully parsed pair, never raising and never a partial result. -/
theorem C8_extract_coordinates_spec :
    extract_coordinates "123 Main St (Coordinates: 51.5074, -0.1278)".data
        = (some (51.5074 : ℚ), some (-0.1278 : ℚ))
    ∧ extract_coordinates "123 Main St".data = (none, none)
    ∧ ∀ s : PyStr, extract_coordinates s = (none, none)
        ∨ ∃ a b : ℚ, extract_coordinates s = (some a, some b) := by
  refine ⟨?_, ?_, ?_⟩
  · have h : extract_coordinates_parts "123 Main St (Coordinates: 51.5074, -0.1278)".data
        = some ((515074, -4), (-1278, -4)) := by decide
    unfold extract_coordinates
    rw [h]
    simp only [Prod.mk.injEq, Option.some.injEq]
    constructor <;> · unfold decValue; norm_num
  · have h : extract_coordinates_parts "123 Main St".data = none := by decide
    unfold extract_coordinates
    rw [h]
  · intro s
    unfold extract_coordinates
    cases h : extract_coordinates_parts s with
    | none => exact Or.inl rfl
    | some xy => exact Or.inr ⟨decValue xy.1, decValue xy.2, rfl⟩

/-- C10: `delete_profile` is total at its interface: it returns `False`
and leaves the table unchanged when no row matches, removes the row and
returns `True` on a match without storage failure (afterwards the key is
gone), and returns `False` leaving the table unchanged when a storage
error occurs — so `False` alone does not separate never-existed from
delete-failed. -/
theorem C10_delete_profile_total :
    (∀ (db : DB) (pid : PyStr) (fail : Bool),
        dbFind db (some (.str pid)) = none → delete_profile db pid fail = (false, db))
    ∧ (∀ (db : DB) (pid : PyStr) (r : DBRow),
        dbFind db (some (.str pid)) = some r →
          delete_profile db pid false = (true, dbEraseFirst db (some (.str pid))))
    ∧ (∀ (db : DB) (pid : PyStr) (r : DBRow), (db.map Prod.fst).Nodup →
        dbFind db (some (.str pid)) = some r →
          dbFind (delete_profile db pid false).2 (some (.str pid)) = none)
    ∧ (∀ (db : DB) (pid : PyStr), delete_profile db pid true = (false, db)) := by
  refine ⟨?_, ?_, ?_, ?_⟩
  · intro db pid fail h
    unfold delete_profile
    rw [h]
  · intro db pid r h
    simp [delete_profile, h]
  · intro db pid r hnd h
    simp only [delete_profile, h]
    simpa using dbFind_dbEraseFirst hnd
  · intro db pid
    unfold delete_profile
    cases h : dbFind db (some (.str pid)) <;> simp

/-- C10 witness: the interface contract evaluated on a one-row table and
on the empty table. -/
theorem C10_delete_profile_total_witness :
    delete_profile [] "p".data false = (false, [])
    ∧ delete_profile [(some (.str "p".data), ⟨⟨1, []⟩, 0, 0⟩)] "p".data false
        = (true, dbEraseFirst [(some (.str "p".data), ⟨⟨1, []⟩, 0, 0⟩)]
            (some (.str "p".data)))
    ∧ dbFind (delete_profile [(some (.str "p".data), ⟨⟨1, []⟩, 0, 0⟩)] "p".data false).2
        (some (.str "p".data)) = none
    ∧ delete_profile [(some (.str "p".data), ⟨⟨1, []⟩, 0, 0⟩)] "p".data true
        = (false, [(some (.str "p".data), ⟨⟨1, []⟩, 0, 0⟩)]) :=
  ⟨C10_delete_profile_total.1 [] "p".data false (by decide),
   C10_delete_profile_total.2.1 [(some (.str "p".data), ⟨⟨1, []⟩, 0, 0⟩)]
     "p".data ⟨⟨1, []⟩, 0, 0⟩ (by decide),
   C10_delete_profile_total.2.2.1 [(some (.str "p".data), ⟨⟨1, []⟩, 0, 0⟩)]
     "p".data ⟨⟨1, []⟩, 0, 0⟩ (by decide) (by decide),
   C10_delete_profile_total.2.2.2 [(some (.str "p".data), ⟨⟨1, []⟩, 0, 0⟩)] "p".data⟩

/-- C7: a row whose payload does not decrypt is skipped by
`get_all_profiles` without disturbing the listing of the remaining rows,
wherever it sits, and a row that decrypts contributes its payload keyed
by its profile id. -/
theorem C7_get_all_profiles_skips_corrupt :
    (∀ (key : Nat) (db1 db2 : DB) (pid : Option Value) (row : DBRow),
        decrypt_data key row.encrypted_data = none →
          get_all_profiles key (db1 ++ (pid, row) :: db2) = get_all_profiles key (db1 ++ db2))
    ∧ (∀ (key : Nat) (pid : Option Value) (row : DBRow) (d : Dict) (db : DB),
        decrypt_data key row.encrypted_data = some d →
          get_all_profiles key ((pid, row) :: db) = (pid, d) :: get_all_profiles key db) :=
  ⟨fun key db1 db2 pid row h => get_all_profiles_skip key pid row h db1 db2,
   fun key pid row d db h => get_all_profiles_cons_ok key pid row d db h⟩

/-- C7 witness: of three stored rows the middle one is encrypted under a
different key; the listing equals the listing of the two good rows, which
are both returned decrypted. -/
theorem C7_get_all_profiles_skips_corrupt_witness :
    get_all_profiles 1
        [(some (.str "a".data), ⟨⟨1, [("name", .str "A".data)]⟩, 0, 0⟩),
         (some (.str "b".data), ⟨⟨2, [("name", .str "B".data)]⟩, 0, 0⟩),
         (some (.str "c".data), ⟨⟨1, [("name", .str "C".data)]⟩, 0, 0⟩)]
      = get_all_profiles 1
        [(some (.str "a".data), ⟨⟨1, [("name", .str "A".data)]⟩, 0, 0⟩),
         (some (.str "c".data), ⟨⟨1, [("name", .str "C".data)]⟩, 0, 0⟩)]
    ∧ get_all_profiles 1
        [(some (.str "a".data), ⟨⟨1, [("name", .str "A".data)]⟩, 0, 0⟩),
         (some (.str "c".data), ⟨⟨1, [("name", .str "C".data)]⟩, 0, 0⟩)]
      = [(some (.str "a".data), [("name", .str "A".data)]),
         (some (.str "c".data), [("name", .str "C".data)])] :=
  ⟨C7_get_all_profiles_skips_corrupt.1 1
      [(some (.str "a".data), ⟨⟨1, [("name", .str "A".data)]⟩, 0, 0⟩)]
      [(some (.str "c".data), ⟨⟨1, [("name", .str "C".data)]⟩, 0, 0⟩)]
      (some (.str "b".data)) ⟨⟨2, [("name", .str "B".data)]⟩, 0, 0⟩ (by decide),
   by decide⟩

/-- C2 counterexample: a store holding one row for `p1` encrypted under
key 2 and read under key 1. The row exists yet `load_profile` returns
`None`, exactly as it does for the never-stored id `p2`: the result of
load does not let callers tell an unreadable row from a missing one, so
no distinct corrupt-record outcome is reported. -/
theorem C2_cx_corrupt_equals_missing :
    dbFind [(some (.str "p1".data), ⟨⟨2, [("x", .int 1)]⟩, 0, 0⟩)]
        (some (.str "p1".data)) ≠ none
    ∧ load_profile 1 [(some (.str "p1".data), ⟨⟨2, [("x", .int 1)]⟩, 0, 0⟩)] "p1".data = none
    ∧ load_profile 1 [(some (.str "p1".data), ⟨⟨2, [("x", .int 1)]⟩, 0, 0⟩)] "p2".data = none := by
  refine ⟨by decide, by decide, by decide⟩

/-- C2 (amended): `load_profile` returns `None` when no row matches, and
also returns `None` — not a distinct error — when the row exists but its
payload fails to decrypt; only a present, decryptable row loads. -/
theorem C2_load_none_on_missing_and_corrupt :
    (∀ (key : Nat) (db : DB) (pid : PyStr),
        dbFind db (some (.str pid)) = none → load_profile key db pid = none)
    ∧ (∀ (key : Nat) (db : DB) (pid : PyStr) (row : DBRow),
        dbFind db (some (.str pid)) = some row →
        decrypt_data key row.encrypted_data = none → load_profile key db pid = none)
    ∧ (∀ (key : Nat) (db : DB) (pid : PyStr) (row : DBRow) (d : Dict),
        dbFind db (some (.str pid)) = some row →
        decrypt_data key row.encrypted_data = some d → load_profile key db pid = some d) := by
  refine ⟨?_, ?_, ?_⟩
  · intro key db pid h
    unfold load_profile
    rw [h]
  · intro key db pid row h1 h2
    simp [load_profile, h1, h2]
  · intro key db pid row d h1 h2
    simp [load_profile, h1, h2]

/-- C2 witness: the amended contract evaluated on a one-row table under
the right key, the wrong key, and a missing id. -/
theorem C2_load_none_on_missing_and_corrupt_witness :
    load_profile 1 [(some (.str "p1".data), ⟨⟨2, [("x", .int 1)]⟩, 0, 0⟩)] "q".data = none
    ∧ load_profile 1 [(some (.str "p1".data), ⟨⟨2, [("x", .int 1)]⟩, 0, 0⟩)] "p1".data = none
    ∧ load_profile 2 [(some (.str "p1".data), ⟨⟨2, [("x", .int 1)]⟩, 0, 0⟩)] "p1".data
        = some [("x", .int 1)] :=
  ⟨C2_load_none_on_missing_and_corrupt.1 1
      [(some (.str "p1".data), ⟨⟨2, [("x", .int 1)]⟩, 0, 0⟩)] "q".data (by decide),
   C2_load_none_on_missing_and_corrupt.2.1 1
      [(some (.str "p1".data), ⟨⟨2, [("x", .int 1)]⟩, 0, 0⟩)] "p1".data
      ⟨⟨2, [("x", .int 1)]⟩, 0, 0⟩ (by decide) (by decide),
   C2_load_none_on_missing_and_corrupt.2.2 2
      [(some (.str "p1".data), ⟨⟨2, [("x", .int 1)]⟩, 0, 0⟩)] "p1".data
      ⟨⟨2, [("x", .int 1)]⟩, 0, 0⟩ [("x", .int 1)] (by decide) (by decide)⟩

/-- C1 counterexample: a new record with `gdpr_consent = False` and id
`p1` saved through the Store into an empty table. The save succeeds, a
row is created, and the record loads back — the Store performs no consent
check at write time, contradicting the claim that such a save is rejected
with no row created. -/
theorem C1_cx_store_saves_without_consent :
    (save_profile 7 3 []
        [("profile_id", .str "p1".data), ("name", .str "Alex".data),
         ("gdpr_consent", .bool false)]).1 = some (.str "p1".data)
    ∧ (save_profile 7 3 []
        [("profile_id", .str "p1".data), ("name", .str "Alex".data),
         ("gdpr_consent", .bool false)]).2 ≠ []
    ∧ load_profile 7 (save_profile 7 3 []
        [("profile_id", .str "p1".data), ("name", .str "Alex".data),
         ("gdpr_consent", .bool false)]).2 "p1".data
      = some [("profile_id", .str "p1".data), ("name", .str "Alex".data),
          ("gdpr_consent", .bool false)] :=
  ⟨by decide, by decide, by decide⟩

/-- C1 (amended): the Store accepts and persists every record regardless
of its consent flag — a new record without `gdpr_consent = True` is still
inserted and loadable — while the consent check lives in
`Profile.validate` (and in the UI), not in `save_profile`. -/
theorem C1_consent_checked_in_model_not_store :
    (∀ (key now : Nat) (db : DB) (data : Dict) (s : PyStr),
        dictGet data "profile_id" = some (.str s) →
        dictGet data "gdpr_consent" ≠ some (.bool true) →
        dbFind db (some (.str s)) = none →
        (save_profile key now db data).2
            = db ++ [(some (.str s),
                { encrypted_data := encrypt_data key data, created_date := now,
                  last_updated := now })]
          ∧ load_profile key (save_profile key now db data).2 s = some data)
    ∧ (∀ p : Models.Profile, p.gdpr_consent = false →
        "You must consent to data storage".data ∈ Models.Profile.validate p) := by
  refine ⟨?_, ?_⟩
  · intro key now db data s h _hcons hf
    have hsnd := save_profile_snd key now db data
    rw [h, hf] at hsnd
    simp only at hsnd
    exact ⟨hsnd, load_profile_save_profile key now db data s h⟩
  · intro p hp
    simp [Models.Profile.validate, hp]

/-- C1 witness: the amended contract evaluated on a concrete
non-consenting record and on a default-constructed profile. -/
theorem C1_consent_checked_in_model_not_store_witness :
    (save_profile 7 3 [] [("profile_id", .str "p1".data), ("gdpr_consent", .bool false)]).2
        = [] ++ [(some (.str "p1".data),
            { encrypted_data := encrypt_data 7
                [("profile_id", .str "p1".data), ("gdpr_consent", .bool false)],
              created_date := 3, last_updated := 3 })]
    ∧ load_profile 7 (save_profile 7 3 []
        [("profile_id", .str "p1".data), ("gdpr_consent", .bool false)]).2 "p1".data
        = some [("profile_id", .str "p1".data), ("gdpr_consent", .bool false)]
    ∧ "You must consent to data storage".data
        ∈ Models.Profile.validate
            { profile_id := [], created_date := ⟨⟨2025, 1, 1⟩, 0, 0, 0, 0⟩,
              last_updated := ⟨⟨2025, 1, 1⟩, 0, 0, 0, 0⟩ } :=
  ⟨(C1_consent_checked_in_model_not_store.1 7 3 []
      [("profile_id", .str "p1".data), ("gdpr_consent", .bool false)] "p1".data
      (by decide) (by decide) (by decide)).1,
   (C1_consent_checked_in_model_not_store.1 7 3 []
      [("profile_id", .str "p1".data), ("gdpr_consent", .bool false)] "p1".data
      (by decide) (by decide) (by decide)).2,
   C1_consent_checked_in_model_not_store.2
      { profile_id := [], created_date := ⟨⟨2025, 1, 1⟩, 0, 0, 0, 0⟩,
        last_updated := ⟨⟨2025, 1, 1⟩, 0, 0, 0, 0⟩ } (by decide)⟩

/-- C3: saving a record keyed by its string `profile_id` and loading that
id under the same process key returns the record exactly — hence equal on
every field, in particular on every non-derived one — and after any
monotone sequence of saves every stored row satisfies
`created_date ≤ last_updated`. -/
theorem C3_save_load_roundtrip_and_timestamps :
    (∀ (key now : Nat) (db : DB) (data : Dict) (s : PyStr),
        dictGet data "profile_id" = some (.str s) →
        load_profile key (save_profile key now db data).2 s = some data)
    ∧ (∀ (key t : Nat) (db : DB) (ops : List (Dict × Nat)),
        wellTimed db t → timesMonoB t ops = true →
        ∀ e ∈ saveSeq key db ops, e.2.created_date ≤ e.2.last_updated) :=
  ⟨fun key now db data s h => load_profile_save_profile key now db data s h,
   fun key t db ops h hm e he => (wellTimed_saveSeq key ops db t h hm e he).1⟩

/-- C3 witness: a concrete record round-trips through save and load, and
after two saves of the same id at ticks 1 then 5 the stored row keeps
`created_date = 1` with `last_updated = 5`, in order. -/
theorem C3_save_load_roundtrip_and_timestamps_witness :
    load_profile 9 (save_profile 9 4 [] [("profile_id", .str "r1".data)]).2 "r1".data
        = some [("profile_id", .str "r1".data)]
    ∧ (some (.str "r1".data), (⟨⟨9, [("profile_id", .str "r1".data)]⟩, 1, 5⟩ : DBRow))
        ∈ saveSeq 9 [] [([("profile_id", .str "r1".data)], 1),
            ([("profile_id", .str "r1".data)], 5)]
    ∧ (⟨⟨9, [("profile_id", .str "r1".data)]⟩, 1, 5⟩ : DBRow).created_date
        ≤ (⟨⟨9, [("profile_id", .str "r1".data)]⟩, 1, 5⟩ : DBRow).last_updated :=
  ⟨C3_save_load_roundtrip_and_timestamps.1 9 4 [] [("profile_id", .str "r1".data)]
      "r1".data (by decide),
   by decide,
   C3_save_load_roundtrip_and_timestamps.2 9 0 []
      [([("profile_id", .str "r1".data)], 1), ([("profile_id", .str "r1".data)], 5)]
      (by intro e he; cases he) (by decide)
      (some (.str "r1".data), (⟨⟨9, [("profile_id", .str "r1".data)]⟩, 1, 5⟩ : DBRow))
      (by decide)⟩

/-- C6: with unresolvable coordinates and a healthy output call the
poster is a valid document of exactly pages 1 and 3 — the map page is
omitted, not an error; and for both builders, over every combination of
enrichment outcomes, generation fails exactly when the base assembly call
fails. -/
theorem C6_enrichment_failures_isolated :
    (∀ (env : PosterEnv) (d : Dict), env.geocodeResult = none → env.outputOk = true →
        create_missing_person_poster env d = .ok [posterPage1 env d, posterPage3 d])
    ∧ (∀ (env : PosterEnv) (d : Dict),
        exceptOk (create_missing_person_poster env d) = env.outputOk)
    ∧ (∀ (env : DocEnv) (d : Dict), exceptOk (create_profile_pdf env d) = env.buildOk) := by
  refine ⟨?_, ?_, ?_⟩
  · intro env d hgeo hout
    simp [create_missing_person_poster, hgeo, hout]
  · intro env d
    cases hout : env.outputOk <;> simp [create_missing_person_poster, exceptOk, hout]
  · intro env d
    cases hb : env.buildOk <;> simp [create_profile_pdf, exceptOk, hb]

/-- C6 witness: the contract evaluated on an environment with no
resolvable coordinates, an environment whose output call fails, and a
healthy profile-document build, each on a record with the missing-episode
fields present. -/
theorem C6_enrichment_failures_isolated_witness :
    create_missing_person_poster ⟨true, true, true, none, true, true, true, true⟩
        [("last_seen_date", .str "2024-01-02".data),
         ("last_seen_location", .str "Nowhere Lane".data)]
      = .ok [posterPage1 ⟨true, true, true, none, true, true, true, true⟩
          [("last_seen_date", .str "2024-01-02".data),
           ("last_seen_location", .str "Nowhere Lane".data)],
          posterPage3 [("last_seen_date", .str "2024-01-02".data),
           ("last_seen_location", .str "Nowhere Lane".data)]]
    ∧ exceptOk (create_missing_person_poster
        ⟨true, true, true, some (1, 2), true, true, true, false⟩ []) = false
    ∧ exceptOk (create_profile_pdf ⟨true, true, true⟩ []) = true :=
  ⟨C6_enrichment_failures_isolated.1 ⟨true, true, true, none, true, true, true, true⟩
      [("last_seen_date", .str "2024-01-02".data),
       ("last_seen_location", .str "Nowhere Lane".data)] rfl rfl,
   C6_enrichment_failures_isolated.2.1 ⟨true, true, true, some (1, 2), true, true, true, false⟩ [],
   C6_enrichment_failures_isolated.2.2 ⟨true, true, true⟩ []⟩

/-- C5 counterexample: a profile whose `medical_info` is non-empty and
whose `medical_info_short` is absent. Poster page 3 renders the
placeholder `Medical needs: Unknown`, not the auto-derived first sentence
`Needs daily insulin` that `generate_short_summary` would produce — the
fallback the claim asserts does not happen at generation time. -/
theorem C5_cx_poster_shows_placeholder :
    (posterPage3 [("name", .str "Alex".data),
        ("medical_info", .str "Needs daily insulin. Allergic to penicillin.".data)]).get? 3
      = some "Medical needs: Unknown".data
    ∧ generate_short_summary "Needs daily insulin. Allergic to penicillin.".data 15
      = "Needs daily insulin".data
    ∧ some "Medical needs: Unknown".data
      ≠ some ("Medical needs: ".data ++ "Needs daily insulin".data) :=
  ⟨by decide, by decide, by decide⟩

/-- C5 (amended): at poster-generation time a blank or absent short field
renders as the stored value or the `Unknown` placeholder with no
derivation from the long field; the auto-derivation via
`generate_short_summary` happens only when the missing-person form
pre-fills its short-field inputs. -/
theorem C5_short_fallback_only_in_form :
    (∀ (d : Dict) (long : PyStr),
        dictGet d "medical_info_short" = none →
        dictGet d "medical_info" = some (.str long) → long ≠ [] →
        (posterPage3 d).get? 3 = some "Medical needs: Unknown".data)
    ∧ (∀ (d : Dict) (long : PyStr),
        getStrD d "medical_info_short" [] = [] →
        dictGet d "medical_info" = some (.str long) → long ≠ [] →
        formDefaultShort d "medical_info_short" "medical_info"
          = generate_short_summary long 15) := by
  refine ⟨?_, ?_⟩
  · intro d long h1 _h2 _h3
    simp [posterPage3, posterHeaderLines, pyGetD, h1, pyShowValue, List.get?]
  · intro d long h1 h2 h3
    have ht : pyTruthy (dictGet d "medical_info") = true := by
      rw [h2]; simp [pyTruthy, h3]
    have hg : getStrD d "medical_info" [] = long := by
      unfold getStrD; rw [h2]
    unfold formDefaultShort
    rw [h1, if_pos ⟨rfl, ht⟩, hg]

/-- C5 witness: the amended contract evaluated on a record with a long
medical field and no short one. -/
theorem C5_short_fallback_only_in_form_witness :
    (posterPage3 [("medical_info", .str "Loves trains. Avoid loud noises.".data)]).get? 3
      = some "Medical needs: Unknown".data
    ∧ formDefaultShort [("medical_info", .str "Loves trains. Avoid loud noises.".data)]
        "medical_info_short" "medical_info"
      = generate_short_summary "Loves trains. Avoid loud noises.".data 15 :=
  ⟨C5_short_fallback_only_in_form.1
      [("medical_info", .str "Loves trains. Avoid loud noises.".data)]
      "Loves trains. Avoid loud noises.".data (by decide) (by decide) (by decide),
   C5_short_fallback_only_in_form.2
      [("medical_info", .str "Loves trains. Avoid loud noises.".data)]
      "Loves trains. Avoid loud noises.".data (by decide) (by decide) (by decide)⟩

/-- C4 counterexample: a record persisted with a stale
`last_seen_datetime` of `01 January 2024 at 09:00` while its
`last_seen_date` and `last_seen_time` say 2 January 2024, 10:00. After a
save/load round trip, poster page 1 shows the stale stored string — while
recomputing the display from the parts (as the `Profile.last_seen_datetime`
property does) gives `02 January 2024 at 10:00`. The derived field is
taken from the value persisted by a prior write on this read, not
recomputed. -/
theorem C4_cx_poster_uses_stored_derived :
    load_profile 5 (save_profile 5 1 []
        [("profile_id", .str "p4".data), ("name", .str "Alex".data),
         ("last_seen_date", .str "2024-01-02".data),
         ("last_seen_time", .str "10:00".data),
         ("last_seen_datetime", .str "01 January 2024 at 09:00".data)]).2 "p4".data
      = some [("profile_id", .str "p4".data), ("name", .str "Alex".data),
         ("last_seen_date", .str "2024-01-02".data),
         ("last_seen_time", .str "10:00".data),
         ("last_seen_datetime", .str "01 January 2024 at 09:00".data)]
    ∧ (posterPage1 ⟨false, false, false, none, false, false, false, true⟩
        [("profile_id", .str "p4".data), ("name", .str "Alex".data),
         ("last_seen_date", .str "2024-01-02".data),
         ("last_seen_time", .str "10:00".data),
         ("last_seen_datetime", .str "01 January 2024 at 09:00".data)]).get? 11
      = some "Date and time: 01 January 2024 at 09:00".data
    ∧ (Models.from_dict ⟨2025, 6, 1⟩ [] ⟨⟨2025, 6, 1⟩, 0, 0, 0, 0⟩
        [("profile_id", .str "p4".data), ("name", .str "Alex".data),
         ("last_seen_date", .str "2024-01-02".data),
         ("last_seen_time", .str "10:00".data),
         ("last_seen_datetime", .str "01 January 2024 at 09:00".data)]).map
        Models.Profile.last_seen_datetime
      = some "02 January 2024 at 10:00".data
    ∧ "01 January 2024 at 09:00".data ≠ "02 January 2024 at 10:00".data :=
  ⟨by decide, by decide, by decide, by decide⟩

/-- C4 (amended): reads that materialize a profile through
`Profile.from_dict` do recompute derived data — the result is unchanged
under arbitrary rebinding of the persisted `age`, `height`, `weight`,
`hair`, `eyes` and `last_seen_datetime` keys, and the age is computed
from the parsed date of birth; but the Store's `load_profile` hands back
the raw persisted dictionary, and the poster builder reads the persisted
`last_seen_datetime` value from it directly, so reads that bypass
`from_dict` surface stored derived data. -/
theorem C4_derived_recomputed_only_via_from_dict :
    (∀ (today : Date) (freshId : PyStr) (nowDT : DateTimeV) (d : Dict)
        (k : String) (v : Value),
        k ∈ ["age", "height", "weight", "hair", "eyes", "last_seen_datetime"] →
        Models.from_dict today freshId nowDT (dictOverride d k v)
          = Models.from_dict today freshId nowDT d)
    ∧ (∀ (today : Date) (freshId : PyStr) (nowDT : DateTimeV) (d : Dict)
        (s : PyStr) (dt : Date) (p : Models.Profile),
        dictGet d "dob" = some (.str s) → s ≠ [] → parseIsoDate s = some dt →
        Models.from_dict today freshId nowDT d = some p →
        p.age = .int (calculate_age today dt))
    ∧ (∀ (key now : Nat) (db : DB) (data : Dict) (s : PyStr) (env : PosterEnv)
        (d2 : Dict),
        dictGet data "profile_id" = some (.str s) →
        env.imageExists = false →
        load_profile key (save_profile key now db data).2 s = some d2 →
        (posterPage1 env d2).get? 11
          = some ("Date and time: ".data
              ++ pyShowValue (pyGetD data "last_seen_datetime" (.str "Unknown".data)))) := by
  refine ⟨?_, ?_, ?_⟩
  · intro today freshId nowDT d k v hk
    fin_cases hk <;>
      simp (disch := decide) only [Models.from_dict, getStrD_override,
        getBoolD_override, dictGet_override_ne]
  · intro today freshId nowDT d s dt p hdob hs hparse hp
    simp only [Models.from_dict] at hp
    split at hp
    · rw [Option.some.injEq] at hp
      subst hp
      simp [hdob, hs, hparse]
    · exact absurd hp (by simp)
  · intro key now db data s env d2 hpid henv hload
    have h' := load_profile_save_profile key now db data s hpid
    rw [hload] at h'
    injection h' with h'
    subst h'
    simp [posterPage1, posterPhotoElems, posterHeaderLines, posterDescriptionLines,
      posterLastSeenLines, henv, List.get?]

/-- C4 witness: the amended contract evaluated on a concrete dictionary —
rebinding the stored `age` does not change `from_dict`, the age is
recomputed from the 1990-04-15 date of birth as of 2025-06-01, and the
poster built after a round trip shows the persisted last-seen display
string. -/
theorem C4_derived_recomputed_only_via_from_dict_witness :
    Models.from_dict ⟨2025, 6, 1⟩ [] ⟨⟨2025, 6, 1⟩, 0, 0, 0, 0⟩
        (dictOverride [("dob", .str "1990-04-15".data)] "age" (.int 99))
      = Models.from_dict ⟨2025, 6, 1⟩ [] ⟨⟨2025, 6, 1⟩, 0, 0, 0, 0⟩
        [("dob", .str "1990-04-15".data)]
    ∧ (Models.from_dict ⟨2025, 6, 1⟩ [] ⟨⟨2025, 6, 1⟩, 0, 0, 0, 0⟩
          [("dob", .str "1990-04-15".data)]).map Models.Profile.age
        = some (.int (calculate_age ⟨2025, 6, 1⟩ ⟨1990, 4, 15⟩))
    ∧ (posterPage1 ⟨false, false, false, none, false, false, false, true⟩
        ((load_profile 5 (save_profile 5 1 []
            [("profile_id", .str "w4".data),
             ("last_seen_datetime", .str "03 March 2024 at 08:30".data)]).2
          "w4".data).getD [])).get? 11
      = some ("Date and time: ".data
          ++ pyShowValue (pyGetD [("profile_id", .str "w4".data),
              ("last_seen_datetime", .str "03 March 2024 at 08:30".data)]
            "last_seen_datetime" (.str "Unknown".data))) :=
  ⟨C4_derived_recomputed_only_via_from_dict.1 ⟨2025, 6, 1⟩ [] ⟨⟨2025, 6, 1⟩, 0, 0, 0, 0⟩
      [("dob", .str "1990-04-15".data)] "age" (.int 99) (by decide),
   by
    cases hfd : Models.from_dict ⟨2025, 6, 1⟩ [] ⟨⟨2025, 6, 1⟩, 0, 0, 0, 0⟩
        [("dob", .str "1990-04-15".data)] with
    | none => exact absurd hfd (by decide)
    | some p =>
      show some p.age = some (.int (calculate_age ⟨2025, 6, 1⟩ ⟨1990, 4, 15⟩))
      rw [C4_derived_recomputed_only_via_from_dict.2.1 ⟨2025, 6, 1⟩ []
        ⟨⟨2025, 6, 1⟩, 0, 0, 0, 0⟩ [("dob", .str "1990-04-15".data)]
        "1990-04-15".data ⟨1990, 4, 15⟩ p (by decide) (by decide) (by decide) hfd],
   C4_derived_recomputed_only_via_from_dict.2.2 5 1 []
      [("profile_id", .str "w4".data),
       ("last_seen_datetime", .str "03 March 2024 at 08:30".data)]
      "w4".data ⟨false, false, false, none, false, false, false, true⟩
      ((load_profile 5 (save_profile 5 1 []
          [("profile_id", .str "w4".data),
           ("last_seen_datetime", .str "03 March 2024 at 08:30".data)]).2
        "w4".data).getD [])
      (by decide) rfl (by decide)⟩
